import Mathlib

/-!
Verification development for the FoodGI session/authentication component.

The source of truth is `src/services/authService.js` (class AuthService),
`src/contexts/AuthContext.js` (AuthProvider) and
`src/navigation/AppNavigator.js`.  The service methods are asynchronous
JavaScript functions calling three external collaborators: the Firebase
identity provider (`auth()`), the Firestore profile store (`firestore()`),
and the local AsyncStorage credential cache.

Shallow embedding conventions:
* JavaScript primitive values stored in profile objects are modelled by
  `JVal` (strings, numbers for resolved server timestamps, and null);
  an absent key / `undefined` is `Option.none` at the object level.
* JavaScript objects are total functions `String → Option JVal`; the
  spread `\x7b...a, ...b\x7d` is `mergeObj a b` (keys of `b` win).
* The mutable world visible to the service is `FireState`:
  `live` is `auth().currentUser`, `docs` the `users` Firestore collection,
  `cachedUser`/`cachedToken` the two AsyncStorage entries, and `now` a
  server clock used to resolve `serverTimestamp()` sentinels on write.
* Each `await` on an external collaborator has an outcome supplied by an
  environment record (a value on success, `some` error when the call
  rejects); the service code itself is translated deterministically.
* Each operation additionally returns the list of external calls it
  performed, in order, so that call-order and "capability never invoked"
  properties are statable.
-/

set_option autoImplicit false

namespace FoodGI

/-- JavaScript values that the service stores in profile objects: strings,
numbers (resolved server timestamps), and null. -/
inductive JVal where
  | str (s : String)
  | num (n : Nat)
  | null
deriving DecidableEq, Repr

/-- Truthiness of a `JVal` as JavaScript defines it: `null`, the empty
string and `0` are falsy, everything else truthy. -/
def JVal.falsy : JVal → Bool
  | .null => true
  | .str s => s = ""
  | .num n => n = 0

/-- Semantics of the JavaScript expression `x || d` where `x` may also be
`undefined` (modelled as `none`). -/
def jsOr (x : Option JVal) (d : JVal) : JVal :=
  match x with
  | none => d
  | some v => if v.falsy then d else v

/-- A JavaScript object: a key is either absent (`none`) or bound to a
`JVal`.  JSON serialisation into AsyncStorage round-trips, so cache
entries are modelled as the objects themselves. -/
def Obj : Type := String → Option JVal

/-- Object with no keys. -/
def Obj.empty : Obj := fun _ => none

/-- Binding a single key, as in updating an object literal. -/
def Obj.set (o : Obj) (k : String) (v : JVal) : Obj :=
  fun k' => if k' = k then some v else o k'

/-- Semantics of the object spread `\x7b...a, ...b\x7d`: keys of `b`
override keys of `a`. -/
def mergeObj (a b : Obj) : Obj :=
  fun k => match b k with
    | some v => some v
    | none => a k

/-- A Firebase identity (`auth().currentUser` when present): a uid and a
possibly-null email. -/
structure Identity where
  uid : String
  email : Option String
deriving DecidableEq, Repr

/-- Email field of an identity as the JavaScript value `user.email`
(null when absent). -/
def Identity.emailJV (u : Identity) : JVal :=
  match u.email with
  | some e => .str e
  | none => .null

/-- Error kinds observable from the service.  Firebase/Firestore/storage
rejection reasons are carried abstractly; the two errors the service
itself constructs (`No authenticated user found`,
`Failed to reauthenticate user`) get their own constructors. -/
inductive AuthErr where
  | identityConflict
  | invalidCredentialFormat
  | invalidCredentials
  | accountNotFound
  | invalidEmailFormat
  | backendUnavailable
  | storageFailure
  | noAuthenticatedUser
  | reauthenticationFailed
  | nullUser
deriving DecidableEq, Repr

/-- External calls the service can perform, recorded in order in a trace. -/
inductive ExtCall where
  | createUserWithEmailAndPassword (email password : String)
  | signInWithEmailAndPassword (email password : String)
  | signOut
  | firestoreSet (uid : String)
  | firestoreUpdate (uid : String)
  | firestoreGet (uid : String)
  | storageSetItem (key : String)
  | storageGetItem (key : String)
  | storageRemoveItem (key : String)
  | getIdToken
  | reauthenticateWithCredential (email password : String)
  | updatePassword (newPassword : String)
  | sendPasswordResetEmail (email : String)
deriving DecidableEq, Repr

/-- Key of the AsyncStorage entry holding the serialized user snapshot
(`USER_DATA_KEY` in authService.js). -/
def USER_DATA_KEY : String := "@GI Tracker:userData"

/-- Key of the AsyncStorage entry holding the session token
(`AUTH_TOKEN_KEY` in authService.js). -/
def AUTH_TOKEN_KEY : String := "@GI Tracker:authToken"

/-- The world visible to the service: the identity provider's live user,
the Firestore `users` collection, the two AsyncStorage entries, and a
server clock resolving `serverTimestamp()` sentinels. -/
structure FireState where
  live : Option Identity
  docs : String → Option Obj
  cachedUser : Option Obj
  cachedToken : Option String
  now : Nat

/-- Modelled from the spec: the profile-store write capability
`writeProfile(userId, fields) -> void` is "create or merge-update"
(spec section 6); `firestore().doc(uid).update(fields)` therefore merges
`fields` into the existing document, creating it when absent.  The
Firestore client itself is an external collaborator not present in the
repository. -/
def FireState.mergeDoc (s : FireState) (uid : String) (fields : Obj) : FireState :=
  { s with
    docs := fun i => if i = uid then
        some (mergeObj ((s.docs uid).getD Obj.empty) fields)
      else s.docs i,
    now := s.now + 1 }

/-- Replacement write, `firestore().doc(uid).set(doc)`. -/
def FireState.setDoc (s : FireState) (uid : String) (doc : Obj) : FireState :=
  { s with
    docs := fun i => if i = uid then some doc else s.docs i,
    now := s.now + 1 }

/-- Object literal `\x7buid: user.uid, email: user.email\x7d` used as the
identity part of merged session views and cache entries. -/
def uidEmailObj (u : Identity) : Obj :=
  fun k =>
    if k = "uid" then some (.str u.uid)
    else if k = "email" then some u.emailJV
    else none

/-- Profile document written by `register`: the object literal passed to
`firestore().doc(user.uid).set(...)` at authService.js lines 31-38, with
both `serverTimestamp()` sentinels resolved to the clock value `now`. -/
def registerDoc (email : String) (userData : Obj) (now : Nat) : Obj :=
  fun k =>
    if k = "email" then some (.str email)
    else if k = "name" then some (jsOr (userData "name") (.str ""))
    else if k = "birthdate" then some (jsOr (userData "birthdate") .null)
    else if k = "diabetesType" then some (jsOr (userData "diabetesType") (.str ""))
    else if k = "createdAt" then some (.num now)
    else if k = "lastLoginAt" then some (.num now)
    else none

/-- Outcomes of the external calls performed by `register`. -/
structure RegisterEnv where
  createRes : Except AuthErr Identity
  setOutcome : Option AuthErr
  storeOutcome : Option AuthErr

/-- AuthService.register (authService.js lines 19-54).  Creates the
Firebase identity, then the Firestore profile document, then the merged
AsyncStorage entry `\x7buid, email: user.email, ...userData\x7d`; every
error is logged and rethrown, leaving the steps already taken in place. -/
def register (email password : String) (userData : Obj) (env : RegisterEnv)
    (s : FireState) : Except AuthErr Identity × FireState × List ExtCall :=
  match env.createRes with
  | .error e => (.error e, s, [.createUserWithEmailAndPassword email password])
  | .ok user =>
    let s1 := { s with live := some user }
    match env.setOutcome with
    | some e => (.error e, s1,
        [.createUserWithEmailAndPassword email password, .firestoreSet user.uid])
    | none =>
      let s2 := s1.setDoc user.uid (registerDoc email userData s1.now)
      match env.storeOutcome with
      | some e => (.error e, s2,
          [.createUserWithEmailAndPassword email password, .firestoreSet user.uid,
           .storageSetItem USER_DATA_KEY])
      | none =>
        (.ok user, { s2 with cachedUser := some (mergeObj (uidEmailObj user) userData) },
          [.createUserWithEmailAndPassword email password, .firestoreSet user.uid,
           .storageSetItem USER_DATA_KEY])

/-- Cache entry written by `login` when the profile document exists: the
object literal at authService.js lines 88-94. -/
def loginStored (user : Identity) (doc : Obj) : Obj :=
  fun k =>
    if k = "uid" then some (.str user.uid)
    else if k = "email" then some user.emailJV
    else if k = "name" then doc "name"
    else if k = "birthdate" then doc "birthdate"
    else if k = "diabetesType" then doc "diabetesType"
    else none

/-- Outcomes of the external calls performed by `login`. -/
structure LoginEnv where
  signInRes : Except AuthErr Identity
  updateOutcome : Option AuthErr
  getOutcome : Option AuthErr
  storeOutcome : Option AuthErr
  tokenRes : Except AuthErr String
  tokenStoreOutcome : Option AuthErr

/-- Final steps of `login`: `user.getIdToken()` followed by
`AsyncStorage.setItem(AUTH_TOKEN_KEY, token)` (authService.js lines
97-101). -/
def loginStoreToken (tokenRes : Except AuthErr String)
    (tokenStoreOutcome : Option AuthErr) (user : Identity) (s : FireState)
    (tr : List ExtCall) : Except AuthErr Identity × FireState × List ExtCall :=
  match tokenRes with
  | .error e => (.error e, s, tr ++ [.getIdToken])
  | .ok tok =>
    match tokenStoreOutcome with
    | some e => (.error e, s, tr ++ [.getIdToken, .storageSetItem AUTH_TOKEN_KEY])
    | none => (.ok user, { s with cachedToken := some tok },
        tr ++ [.getIdToken, .storageSetItem AUTH_TOKEN_KEY])

/-- AuthService.login (authService.js lines 62-106).  Signs in, updates
the profile document's `lastLoginAt`, reads the document back, writes the
user-data cache entry only when the read found a document
(`if (userDoc.exists)`), then stores a fresh session token; errors are
logged and rethrown. -/
def login (email password : String) (env : LoginEnv) (s : FireState) :
    Except AuthErr Identity × FireState × List ExtCall :=
  match env.signInRes with
  | .error e => (.error e, s, [.signInWithEmailAndPassword email password])
  | .ok user =>
    let s1 := { s with live := some user }
    match env.updateOutcome with
    | some e => (.error e, s1,
        [.signInWithEmailAndPassword email password, .firestoreUpdate user.uid])
    | none =>
      let s2 := s1.mergeDoc user.uid (Obj.empty.set "lastLoginAt" (.num s1.now))
      let tr2 := [.signInWithEmailAndPassword email password,
          .firestoreUpdate user.uid, .firestoreGet user.uid]
      match env.getOutcome with
      | some e => (.error e, s2, tr2)
      | none =>
        match s2.docs user.uid with
        | some doc =>
          match env.storeOutcome with
          | some e => (.error e, s2, tr2 ++ [.storageSetItem USER_DATA_KEY])
          | none =>
            loginStoreToken env.tokenRes env.tokenStoreOutcome user
              { s2 with cachedUser := some (loginStored user doc) }
              (tr2 ++ [.storageSetItem USER_DATA_KEY])
        | none =>
          loginStoreToken env.tokenRes env.tokenStoreOutcome user s2 tr2

/-- Outcomes of the external calls performed by `logout`. -/
structure LogoutEnv where
  signOutOutcome : Option AuthErr
  removeUserOutcome : Option AuthErr
  removeTokenOutcome : Option AuthErr

/-- AuthService.logout (authService.js lines 112-123).  Awaits the remote
`signOut()` first, then removes the two AsyncStorage entries; the whole
body sits in one try block whose catch rethrows, so a failing step skips
every later step. -/
def logout (env : LogoutEnv) (s : FireState) :
    Except AuthErr Unit × FireState × List ExtCall :=
  match env.signOutOutcome with
  | some e => (.error e, s, [.signOut])
  | none =>
    let s1 := { s with live := none }
    match env.removeUserOutcome with
    | some e => (.error e, s1, [.signOut, .storageRemoveItem USER_DATA_KEY])
    | none =>
      let s2 := { s1 with cachedUser := none }
      match env.removeTokenOutcome with
      | some e => (.error e, s2,
          [.signOut, .storageRemoveItem USER_DATA_KEY, .storageRemoveItem AUTH_TOKEN_KEY])
      | none => (.ok (), { s2 with cachedToken := none },
          [.signOut, .storageRemoveItem USER_DATA_KEY, .storageRemoveItem AUTH_TOKEN_KEY])

/-- Outcomes of the external reads performed by the status queries
`isAuthenticated` and `getCurrentUser`. -/
structure StatusEnv where
  getOutcome : Option AuthErr
  storageOutcome : Option AuthErr

/-- AuthService.isAuthenticated (authService.js lines 129-144).  True when
`auth().currentUser` is set; otherwise reads the stored token and returns
`token !== null`; any error is caught and collapsed to false. -/
def isAuthenticated (env : StatusEnv) (s : FireState) : Bool :=
  match s.live with
  | some _ => true
  | none =>
    match env.storageOutcome with
    | some _ => false
    | none => s.cachedToken.isSome

/-- Cache fallback shared by the tail of `getCurrentUser` (authService.js
lines 172-177): read the stored snapshot, parse it when present,
otherwise null; a storage error reaches the surrounding catch, which
returns null. -/
def cachedFallback (env : StatusEnv) (s : FireState) : Option Obj :=
  match env.storageOutcome with
  | some _ => none
  | none => s.cachedUser

/-- AuthService.getCurrentUser (authService.js lines 150-182).  Prefers
the live identity merged with a fresh profile-document read; when the
live identity is absent or the document does not exist it falls back to
the cached snapshot; a throwing read reaches the catch, which returns
null directly — in that case the cache is never consulted. -/
def getCurrentUser (env : StatusEnv) (s : FireState) : Option Obj :=
  match s.live with
  | some user =>
    match env.getOutcome with
    | some _ => none
    | none =>
      match s.docs user.uid with
      | some doc => some (mergeObj (uidEmailObj user) doc)
      | none => cachedFallback env s
  | none => cachedFallback env s

/-- Outcomes of the external calls performed by `updateUserProfile`; the
inner `getCurrentUser` call takes its own `StatusEnv`. -/
structure UpdateProfileEnv where
  updateOutcome : Option AuthErr
  statusEnv : StatusEnv
  storeOutcome : Option AuthErr

/-- AuthService.updateUserProfile (authService.js lines 189-216).
Requires a live identity (else throws `No authenticated user found`),
merges `\x7b...userData, updatedAt: serverTimestamp()\x7d` into the
profile document, then recomputes the session view via
`this.getCurrentUser()` and stores `\x7b...storedUserData, ...userData\x7d`
as the new cache entry. -/
def updateUserProfile (userData : Obj) (env : UpdateProfileEnv) (s : FireState) :
    Except AuthErr Unit × FireState × List ExtCall :=
  match s.live with
  | none => (.error .noAuthenticatedUser, s, [])
  | some user =>
    match env.updateOutcome with
    | some e => (.error e, s, [.firestoreUpdate user.uid])
    | none =>
      let s1 := s.mergeDoc user.uid
        (mergeObj userData (Obj.empty.set "updatedAt" (.num s.now)))
      let stored := getCurrentUser env.statusEnv s1
      match env.storeOutcome with
      | some e => (.error e, s1, [.firestoreUpdate user.uid, .storageSetItem USER_DATA_KEY])
      | none =>
        (.ok (), { s1 with cachedUser := some (mergeObj (stored.getD Obj.empty) userData) },
          [.firestoreUpdate user.uid, .storageSetItem USER_DATA_KEY])

/-- AuthService.resetPassword (authService.js lines 223-230): delegates to
`sendPasswordResetEmail`, rethrowing its error; no local state change. -/
def resetPassword (email : String) (env : Option AuthErr) (s : FireState) :
    Except AuthErr Unit × FireState × List ExtCall :=
  match env with
  | some e => (.error e, s, [.sendPasswordResetEmail email])
  | none => (.ok (), s, [.sendPasswordResetEmail email])

/-- Outcome of the external `reauthenticateWithCredential` call. -/
structure ReauthEnv where
  reauthOutcome : Option AuthErr

/-- Try block of AuthService.reauthenticate (authService.js lines
238-251): throws when there is no live user or its email is falsy
(`!currentUser.email` is true for null and for the empty string),
otherwise re-proves identity with the provider. -/
def reauthenticateTry (password : String) (env : ReauthEnv) (s : FireState) :
    Except AuthErr Bool × List ExtCall :=
  match s.live with
  | none => (.error .noAuthenticatedUser, [])
  | some user =>
    match user.email with
    | none => (.error .noAuthenticatedUser, [])
    | some em =>
      if em = "" then (.error .noAuthenticatedUser, [])
      else
        match env.reauthOutcome with
        | some e => (.error e, [.reauthenticateWithCredential em password])
        | none => (.ok true, [.reauthenticateWithCredential em password])

/-- AuthService.reauthenticate (authService.js lines 237-256): the catch
logs every error and returns false, so the method returns a plain
boolean and never raises; local state is untouched. -/
def reauthenticate (password : String) (env : ReauthEnv) (s : FireState) :
    Bool × List ExtCall :=
  match reauthenticateTry password env s with
  | (.ok b, tr) => (b, tr)
  | (.error _, tr) => (false, tr)

/-- Outcomes of the external calls performed by `changePassword`. -/
structure ChangePasswordEnv where
  reauthEnv : ReauthEnv
  updatePasswordOutcome : Option AuthErr

/-- AuthService.changePassword (authService.js lines 264-280): calls
`this.reauthenticate(currentPassword)`; when it reports false, throws
`Failed to reauthenticate user` (rethrown by the catch) without touching
the provider; otherwise delegates to `currentUser.updatePassword`.  A
null `currentUser` at that point would be a TypeError, modelled as
`AuthErr.nullUser`; it is unreachable because reauthentication only
succeeds with a live user. -/
def changePassword (currentPassword newPassword : String)
    (env : ChangePasswordEnv) (s : FireState) :
    Except AuthErr Bool × FireState × List ExtCall :=
  let r := reauthenticate currentPassword env.reauthEnv s
  if r.1 then
    match s.live with
    | none => (.error .nullUser, s, r.2)
    | some _ =>
      match env.updatePasswordOutcome with
      | some e => (.error e, s, r.2 ++ [.updatePassword newPassword])
      | none => (.ok true, s, r.2 ++ [.updatePassword newPassword])
  else (.error .reauthenticationFailed, s, r.2)

/-! ### Context layer: AuthContext.js and AppNavigator.js

The AuthProvider holds React state `currentUser`, `loading`, `error`.
Each completed asynchronous event is modelled as one atomic step on the
pair of the service-visible world and the context state (spec section 5:
callbacks are serialized and each is processed to completion). -/

/-- React state held by AuthProvider (AuthContext.js lines 13-15). -/
structure CtxState where
  currentUser : Option Obj
  loading : Bool
  lastErr : Option AuthErr

/-- Completed asynchronous events that can reach the AuthProvider: the
identity-provider state-change callback, and the operations the provider
exposes in its context value.  Each carries the outcomes of the external
calls it performs. -/
inductive CtxEvent where
  | authChange (env : StatusEnv)
  | registerEv (email password : String) (userData : Obj) (env : RegisterEnv)
  | loginEv (email password : String) (env : LoginEnv)
  | logoutEv (env : LogoutEnv)
  | resetPasswordEv (email : String) (env : Option AuthErr)
  | updateProfileEv (userData : Obj) (env : UpdateProfileEnv)
  | changePasswordEv (currentPassword newPassword : String) (env : ChangePasswordEnv)

/-- Effect on the context state of an operation wrapped in the provider's
standard try/catch/finally (AuthContext.js lines 43-131): `setError(null)`
then on catch `setError(err.message)`, and `setLoading(false)` in the
finally; `currentUser` is untouched by these wrappers. -/
def ctxAfterOp {α : Type} (r : Except AuthErr α) (c : CtxState) : CtxState :=
  { c with loading := false,
           lastErr := match r with
             | .ok _ => none
             | .error e => some e }

/-- One completed event processed by the AuthProvider: the service call
updates the service-visible world, and the provider updates its React
state.  Only the identity-change callback (AuthContext.js lines 24-40)
and a successful `updateProfile` (lines 101-116, via
`setCurrentUser(prev => (\x7b...prev, ...userData\x7d))`) write
`currentUser`. -/
def ctxStep (fire : FireState) (c : CtxState) : CtxEvent → FireState × CtxState
  | .authChange env =>
    match fire.live with
    | some _ =>
      (fire, { c with currentUser := getCurrentUser env fire, loading := false })
    | none => (fire, { c with currentUser := none, loading := false })
  | .registerEv email password userData env =>
    let r := register email password userData env fire
    (r.2.1, ctxAfterOp r.1 c)
  | .loginEv email password env =>
    let r := login email password env fire
    (r.2.1, ctxAfterOp r.1 c)
  | .logoutEv env =>
    let r := logout env fire
    (r.2.1, ctxAfterOp r.1 c)
  | .resetPasswordEv email env =>
    let r := resetPassword email env fire
    (r.2.1, ctxAfterOp r.1 c)
  | .updateProfileEv userData env =>
    let r := updateUserProfile userData env fire
    match r.1 with
    | .ok _ =>
      (r.2.1, { ctxAfterOp r.1 c with
        currentUser := some (mergeObj ((c.currentUser).getD Obj.empty) userData) })
    | .error _ => (r.2.1, ctxAfterOp r.1 c)
  | .changePasswordEv currentPassword newPassword env =>
    let r := changePassword currentPassword newPassword env fire
    (r.2.1, ctxAfterOp r.1 c)

/-- Context value `isAuthenticated: () => !!currentUser`
(AuthContext.js line 144): double negation of JavaScript truthiness,
true exactly when the state holds an object. -/
def ctxIsAuthenticated (c : CtxState) : Bool :=
  !(!c.currentUser.isSome)

/-- Screen trees AppNavigator can render. -/
inductive NavTree where
  | loadingView
  | appStack
  | authStack
deriving DecidableEq, Repr

/-- AppNavigator (AppNavigator.js lines 35-79): while initializing or
`loading` it renders the spinner; afterwards it branches on the
truthiness of `currentUser` alone.  The service-visible world is a
parameter only to express that the render never reads it (in particular
it never consults the cached session token). -/
def appNavigatorTree (initFlag : Bool) (_fire : FireState) (c : CtxState) : NavTree :=
  if initFlag || c.loading then .loadingView
  else if c.currentUser.isSome then .appStack
  else .authStack

/-! ### Concrete fixtures used by witnesses and counterexamples -/

/-- Sample identity. -/
def uAnn : Identity := { uid := "u1", email := some "a@x.com" }

/-- Sample registration fields (spec section 8 scenario). -/
def annFields : Obj :=
  ((Obj.empty.set "name" (.str "Ann")).set "birthdate" (.str "1990-01-01")).set
    "diabetesType" (.str "Type 1")

/-- World with no live identity, no documents and an empty cache. -/
def emptyFire : FireState :=
  { live := none, docs := fun _ => none, cachedUser := none, cachedToken := none, now := 0 }

/-- World with no live identity but both cache entries populated. -/
def fireWithCache : FireState :=
  { emptyFire with cachedUser := some annFields, cachedToken := some "tok" }

/-- Status environment in which both external reads succeed. -/
def okStatusEnv : StatusEnv := { getOutcome := none, storageOutcome := none }

/-- Register environment in which every external call succeeds. -/
def okRegisterEnv : RegisterEnv :=
  { createRes := .ok uAnn, setOutcome := none, storeOutcome := none }

/-- Login environment in which every external call succeeds. -/
def okLoginEnv : LoginEnv :=
  { signInRes := .ok uAnn, updateOutcome := none, getOutcome := none,
    storeOutcome := none, tokenRes := .ok "tok9", tokenStoreOutcome := none }

/-! ### Claim C1 -/

/-- Claim C1, counterexample.  With both cache entries present, a logout
whose remote sign-out rejects rethrows the error and leaves both cache
entries in place — contradicting the claim that they are absent after
logout() raises. -/
theorem logout_remote_failure_keeps_cache :
    (logout { signOutOutcome := some .backendUnavailable, removeUserOutcome := none,
              removeTokenOutcome := none } fireWithCache).1 = .error .backendUnavailable ∧
    (logout { signOutOutcome := some .backendUnavailable, removeUserOutcome := none,
              removeTokenOutcome := none } fireWithCache).2.1.cachedUser.isSome = true ∧
    (logout { signOutOutcome := some .backendUnavailable, removeUserOutcome := none,
              removeTokenOutcome := none } fireWithCache).2.1.cachedToken = some "tok" := by
  refine ⟨rfl, rfl, rfl⟩

/-- Claim C1, amended.  logout() clears both local cache entries when the
remote sign-out (and the removals) succeed; but when the remote sign-out
call fails, the catch rethrows before any removal is attempted, so both
cache entries are left untouched and the state is unchanged. -/
theorem logout_cache_policy (s : FireState) (e : AuthErr) (o1 o2 : Option AuthErr) :
    ((logout { signOutOutcome := none, removeUserOutcome := none,
               removeTokenOutcome := none } s).1 = .ok () ∧
     (logout { signOutOutcome := none, removeUserOutcome := none,
               removeTokenOutcome := none } s).2.1.cachedUser = none ∧
     (logout { signOutOutcome := none, removeUserOutcome := none,
               removeTokenOutcome := none } s).2.1.cachedToken = none) ∧
    ((logout { signOutOutcome := some e, removeUserOutcome := o1,
               removeTokenOutcome := o2 } s).1 = .error e ∧
     (logout { signOutOutcome := some e, removeUserOutcome := o1,
               removeTokenOutcome := o2 } s).2.1 = s) := by
  exact ⟨⟨rfl, rfl, rfl⟩, ⟨rfl, rfl⟩⟩

/-! ### Claim C2 -/

/-- Test for an external call being a password update. -/
def isPwUpdate : ExtCall → Bool
  | .updatePassword _ => true
  | _ => false

/-- Reauthentication performs at most the credential check: its trace
never contains a password update. -/
theorem reauth_trace_no_pw_update (password : String) (env : ReauthEnv) (s : FireState) :
    ((reauthenticate password env s).2.any isPwUpdate) = false := by
  rcases s with ⟨lv, docs, cu, ct, n⟩
  rcases env with ⟨ro⟩
  rcases lv with _ | ⟨uid, em⟩
  · rfl
  · rcases em with _ | e
    · rfl
    · by_cases he : e = "" <;> rcases ro with _ | e' <;>
        simp [reauthenticate, reauthenticateTry, he, isPwUpdate]

/-- Claim C2.  Whenever reauthenticate(currentPassword) would report
false, changePassword fails with the reauthentication error, leaves the
state unchanged, and its trace contains no password-update call. -/
theorem changePassword_reauth_gate (cp np : String) (env : ChangePasswordEnv)
    (s : FireState) (h : (reauthenticate cp env.reauthEnv s).1 = false) :
    (changePassword cp np env s).1 = .error .reauthenticationFailed ∧
    (changePassword cp np env s).2.1 = s ∧
    ((changePassword cp np env s).2.2.any isPwUpdate) = false := by
  have htr := reauth_trace_no_pw_update cp env.reauthEnv s
  simp only [changePassword, h, Bool.false_eq_true, if_false]
  exact ⟨trivial, trivial, htr⟩

/-- Change-password environment in which the provider would accept
every call. -/
def okChangePasswordEnv : ChangePasswordEnv :=
  { reauthEnv := { reauthOutcome := none }, updatePasswordOutcome := none }

/-- Claim C2, witness: with no live identity, reauthentication reports
false and changePassword fails without touching the provider. -/
theorem changePassword_reauth_gate_witness :
    (changePassword "old" "new" okChangePasswordEnv emptyFire).1 =
      .error .reauthenticationFailed ∧
    (changePassword "old" "new" okChangePasswordEnv emptyFire).2.1 = emptyFire ∧
    ((changePassword "old" "new" okChangePasswordEnv emptyFire).2.2.any isPwUpdate) =
      false :=
  changePassword_reauth_gate "old" "new" okChangePasswordEnv emptyFire rfl

/-! ### Claim C3 -/

/-- Claim C3.  reauthenticate() is boolean-valued by construction (the
catch collapses every internal error to false), and it reports true
exactly when a live identity with a truthy email is present and the
provider accepted the credential; in every other case — no user, missing
or empty email, or a rejecting provider call — it reports false rather
than raising. -/
theorem reauthenticate_true_iff_success (password : String) (env : ReauthEnv)
    (s : FireState) :
    (reauthenticate password env s).1 = true ↔
      ∃ u em, s.live = some u ∧ u.email = some em ∧ em ≠ "" ∧
        env.reauthOutcome = none := by
  rcases s with ⟨lv, docs, cu, ct, n⟩
  rcases env with ⟨ro⟩
  rcases lv with _ | ⟨uid, em⟩
  · simp [reauthenticate, reauthenticateTry]
  · rcases em with _ | e
    · simp [reauthenticate, reauthenticateTry]
    · by_cases he : e = "" <;> rcases ro with _ | e' <;>
        simp [reauthenticate, reauthenticateTry, he]

/-! ### Claim C4 -/

/-- World with a live identity and a populated cache, whose profile read
is about to fail. -/
def fireLiveCache : FireState :=
  { live := some uAnn, docs := fun _ => none, cachedUser := some annFields,
    cachedToken := some "tok", now := 3 }

/-- Claim C4, counterexample.  With a live identity, a throwing profile
read and a non-empty cached snapshot, getCurrentUser returns null rather
than the cached snapshot: the catch swallows the error without consulting
the cache. -/
theorem getCurrentUser_error_skips_cache :
    getCurrentUser { getOutcome := some .backendUnavailable, storageOutcome := none }
      fireLiveCache = none ∧
    fireLiveCache.live.isSome = true ∧
    fireLiveCache.cachedUser.isSome = true := by
  exact ⟨rfl, rfl, rfl⟩

/-- Claim C4, amended.  getCurrentUser prefers the live identity merged
with a fresh profile read; it falls back to the cached snapshot when the
live identity is absent, or when the identity is live but the profile
document does not exist (returning null when the cache is empty too);
but when the profile read itself fails, the swallowed error yields null
directly and the cache is never consulted. -/
theorem getCurrentUser_fallback_policy (s : FireState) (u : Identity) (doc : Obj)
    (go so : Option AuthErr) (e : AuthErr) :
    (getCurrentUser { getOutcome := none, storageOutcome := so }
        { s with live := some u,
                 docs := fun i => if i = u.uid then some doc else s.docs i } =
      some (mergeObj (uidEmailObj u) doc)) ∧
    (getCurrentUser { getOutcome := go, storageOutcome := none }
        { s with live := none } = s.cachedUser) ∧
    (getCurrentUser { getOutcome := none, storageOutcome := none }
        { s with live := some u,
                 docs := fun i => if i = u.uid then none else s.docs i } =
      s.cachedUser) ∧
    (getCurrentUser { getOutcome := some e, storageOutcome := so }
        { s with live := some u } = none) := by
  refine ⟨?_, ?_, ?_, ?_⟩
  · simp [getCurrentUser]
  · simp [getCurrentUser, cachedFallback]
  · simp [getCurrentUser, cachedFallback]
  · simp [getCurrentUser]

/-! ### Claim C5 -/

/-- World with no live identity whose token cache entry holds the empty
string. -/
def fireEmptyToken : FireState := { emptyFire with cachedToken := some "" }

/-- Claim C5, counterexample.  With no live identity and a cached token
entry holding the empty string — not a non-empty token — isAuthenticated
still returns true, because the code tests `token !== null`, i.e. entry
presence, not token non-emptiness. -/
theorem isAuthenticated_empty_token_true :
    isAuthenticated okStatusEnv fireEmptyToken = true ∧
    fireEmptyToken.live = none ∧
    fireEmptyToken.cachedToken = some "" := by
  exact ⟨rfl, rfl, rfl⟩

/-- Claim C5, amended.  isAuthenticated() returns true whenever the
identity provider reports a live identity; otherwise it returns true iff
the storage read succeeds and the cache holds a session-token entry at
all — presence of the entry, not non-emptiness of the token, is what is
checked, and a failing storage read yields false. -/
theorem isAuthenticated_token_presence (env : StatusEnv) (s : FireState) :
    isAuthenticated env s =
      (s.live.isSome || (env.storageOutcome.isNone && s.cachedToken.isSome)) := by
  rcases s with ⟨lv, docs, cu, ct, n⟩
  rcases env with ⟨go, so⟩
  rcases lv with _ | u
  · rcases so with _ | e <;> simp [isAuthenticated]
  · simp [isAuthenticated]

/-! ### Claim C6 -/

/-- Claim C6.  register() performs its three steps in order — identity
creation, then the profile-document write stamped with creation and
last-login timestamps, then the merged cache entry — and when the
profile-document write fails after identity creation succeeded, the
error is surfaced unchanged, the live identity is left intact, and no
rollback call of any kind is issued (the trace stops at the failed
document write; documents and cache are untouched). -/
theorem register_order_no_rollback (email password : String) (userData : Obj)
    (u : Identity) (e : AuthErr) (o : Option AuthErr) (s : FireState) :
    ((register email password userData ⟨.ok u, none, none⟩ s).1 = .ok u ∧
     (register email password userData ⟨.ok u, none, none⟩ s).2.2 =
       [.createUserWithEmailAndPassword email password, .firestoreSet u.uid,
        .storageSetItem USER_DATA_KEY] ∧
     (register email password userData ⟨.ok u, none, none⟩ s).2.1.docs u.uid =
       some (registerDoc email userData s.now) ∧
     registerDoc email userData s.now "createdAt" = some (.num s.now) ∧
     registerDoc email userData s.now "lastLoginAt" = some (.num s.now) ∧
     (register email password userData ⟨.ok u, none, none⟩ s).2.1.cachedUser =
       some (mergeObj (uidEmailObj u) userData)) ∧
    ((register email password userData ⟨.ok u, some e, o⟩ s).1 = .error e ∧
     (register email password userData ⟨.ok u, some e, o⟩ s).2.1.live = some u ∧
     (register email password userData ⟨.ok u, some e, o⟩ s).2.1.docs = s.docs ∧
     (register email password userData ⟨.ok u, some e, o⟩ s).2.1.cachedUser =
       s.cachedUser ∧
     (register email password userData ⟨.ok u, some e, o⟩ s).2.1.cachedToken =
       s.cachedToken ∧
     (register email password userData ⟨.ok u, some e, o⟩ s).2.2 =
       [.createUserWithEmailAndPassword email password, .firestoreSet u.uid]) := by
  refine ⟨⟨rfl, rfl, ?_, rfl, rfl, rfl⟩, ⟨rfl, rfl, rfl, rfl, rfl, rfl⟩⟩
  simp [register, FireState.setDoc]

/-! ### Claim C7 -/

/-- Claim C7.  For valid profile fields — name and condition type given
as strings, birthdate given as a non-empty string or null — a successful
register() followed by getCurrentUser() yields a session view whose
profile fields equal the fields supplied at registration. -/
theorem register_roundtrip_profile (email password : String) (ud : Obj)
    (u : Identity) (n d : String) (bd : JVal) (s : FireState)
    (hn : ud "name" = some (.str n))
    (hd : ud "diabetesType" = some (.str d))
    (hb : ud "birthdate" = some bd)
    (hbv : bd.falsy = false ∨ bd = .null) :
    (register email password ud ⟨.ok u, none, none⟩ s).1 = .ok u ∧
    (getCurrentUser ⟨none, none⟩
      (register email password ud ⟨.ok u, none, none⟩ s).2.1).isSome = true ∧
    ((getCurrentUser ⟨none, none⟩
      (register email password ud ⟨.ok u, none, none⟩ s).2.1).getD Obj.empty)
        "name" = some (.str n) ∧
    ((getCurrentUser ⟨none, none⟩
      (register email password ud ⟨.ok u, none, none⟩ s).2.1).getD Obj.empty)
        "birthdate" = some bd ∧
    ((getCurrentUser ⟨none, none⟩
      (register email password ud ⟨.ok u, none, none⟩ s).2.1).getD Obj.empty)
        "diabetesType" = some (.str d) := by
  refine ⟨rfl, ?_, ?_, ?_, ?_⟩
  · simp [register, FireState.setDoc, getCurrentUser]
  · by_cases hn0 : n = "" <;>
      simp [register, FireState.setDoc, getCurrentUser, mergeObj, registerDoc,
        jsOr, JVal.falsy, hn, hn0]
  · rcases hbv with hbv | hbv
    · simp [register, FireState.setDoc, getCurrentUser, mergeObj, registerDoc,
        jsOr, hb, hbv]
    · subst hbv
      simp [register, FireState.setDoc, getCurrentUser, mergeObj, registerDoc,
        jsOr, JVal.falsy, hb]
  · by_cases hd0 : d = "" <;>
      simp [register, FireState.setDoc, getCurrentUser, mergeObj, registerDoc,
        jsOr, JVal.falsy, hd, hd0]

/-- Claim C7, witness: registering Ann with a birthdate and condition
type, then reading the current session, returns exactly those fields. -/
theorem register_roundtrip_profile_witness :
    (register "a@x.com" "secret1" annFields ⟨.ok uAnn, none, none⟩ emptyFire).1 =
      .ok uAnn ∧
    (getCurrentUser ⟨none, none⟩
      (register "a@x.com" "secret1" annFields ⟨.ok uAnn, none, none⟩
        emptyFire).2.1).isSome = true ∧
    ((getCurrentUser ⟨none, none⟩
      (register "a@x.com" "secret1" annFields ⟨.ok uAnn, none, none⟩
        emptyFire).2.1).getD Obj.empty) "name" = some (.str "Ann") ∧
    ((getCurrentUser ⟨none, none⟩
      (register "a@x.com" "secret1" annFields ⟨.ok uAnn, none, none⟩
        emptyFire).2.1).getD Obj.empty) "birthdate" = some (.str "1990-01-01") ∧
    ((getCurrentUser ⟨none, none⟩
      (register "a@x.com" "secret1" annFields ⟨.ok uAnn, none, none⟩
        emptyFire).2.1).getD Obj.empty) "diabetesType" = some (.str "Type 1") :=
  register_roundtrip_profile "a@x.com" "secret1" annFields uAnn "Ann" "Type 1"
    (.str "1990-01-01") emptyFire rfl rfl rfl (Or.inl rfl)

/-! ### Claim C8 -/

/-- Remote profile document diverging from the cached snapshot. -/
def docRemote : Obj := Obj.empty.set "name" (.str "Remote")

/-- Stale cached snapshot diverging from the remote document. -/
def oldSnap : Obj := Obj.empty.set "name" (.str "Old")

/-- World where the cached snapshot and the remote document disagree on
the name field. -/
def fireC8 : FireState :=
  { live := some uAnn, docs := fun i => if i = "u1" then some docRemote else none,
    cachedUser := some oldSnap, cachedToken := none, now := 5 }

/-- Update fields touching only the birthdate. -/
def udB : Obj := Obj.empty.set "birthdate" (.str "B")

/-- Profile-update environment in which every external call succeeds. -/
def okUpdateEnv : UpdateProfileEnv :=
  { updateOutcome := none, statusEnv := okStatusEnv, storeOutcome := none }

/-- Claim C8, counterexample.  When the cached snapshot (name "Old") and
the remote document (name "Remote") disagree, a successful
updateProfile(\x7bbirthdate: "B"\x7d) stores a cache entry whose name is
"Remote" — the fields were merged into the re-read session view, not
into the cached snapshot, whose merge would keep "Old". -/
theorem updateUserProfile_merge_base_not_cache :
    (updateUserProfile udB okUpdateEnv fireC8).1 = .ok () ∧
    (((updateUserProfile udB okUpdateEnv fireC8).2.1.cachedUser).getD Obj.empty)
      "name" = some (.str "Remote") ∧
    (mergeObj oldSnap udB) "name" = some (.str "Old") ∧
    (((updateUserProfile udB okUpdateEnv fireC8).2.1.cachedUser).getD Obj.empty)
      "name" ≠ (mergeObj oldSnap udB) "name" := by
  refine ⟨rfl, rfl, rfl, by decide⟩

/-- Claim C8, amended.  updateProfile(fields) requires a live identity:
without one it fails with the NotAuthenticated error, performing no
external call and changing no state.  With one, it writes the fields
into the remote document together with an updated-timestamp, and then
writes a cache entry that contains the fields — merged into the current
session view re-read via getCurrentUser (live profile read preferred),
not into the raw cached snapshot. -/
theorem updateUserProfile_policy (sA sB : FireState) (u : Identity) (ud : Obj)
    (env : UpdateProfileEnv) (st : StatusEnv) (k : String) (v : JVal)
    (hk : ud k = some v) (hku : k ≠ "updatedAt") :
    (updateUserProfile ud env { sA with live := none } =
      (.error .noAuthenticatedUser, { sA with live := none }, [])) ∧
    ((updateUserProfile ud
        { updateOutcome := none, statusEnv := st, storeOutcome := none }
        { sB with live := some u }).1 = .ok () ∧
     (((updateUserProfile ud
        { updateOutcome := none, statusEnv := st, storeOutcome := none }
        { sB with live := some u }).2.1.docs u.uid).getD Obj.empty) k = some v ∧
     (((updateUserProfile ud
        { updateOutcome := none, statusEnv := st, storeOutcome := none }
        { sB with live := some u }).2.1.docs u.uid).getD Obj.empty) "updatedAt" =
       some (.num sB.now) ∧
     (updateUserProfile ud
        { updateOutcome := none, statusEnv := st, storeOutcome := none }
        { sB with live := some u }).2.1.cachedUser.isSome = true ∧
     (((updateUserProfile ud
        { updateOutcome := none, statusEnv := st, storeOutcome := none }
        { sB with live := some u }).2.1.cachedUser).getD Obj.empty) k =
       some v) := by
  refine ⟨rfl, rfl, ?_, ?_, ?_, ?_⟩
  · simp [updateUserProfile, FireState.mergeDoc, mergeObj, Obj.set, Obj.empty, hk, hku]
  · simp [updateUserProfile, FireState.mergeDoc, mergeObj, Obj.set, Obj.empty]
  · simp [updateUserProfile]
  · simp [updateUserProfile, mergeObj, Obj.empty, hk]

/-- Claim C8, witness: updating the birthdate with a live identity
succeeds, stamps the document, and the new cache entry carries the
birthdate; with no identity the call fails and changes nothing. -/
theorem updateUserProfile_policy_witness :
    (updateUserProfile udB okUpdateEnv { emptyFire with live := none } =
      (.error .noAuthenticatedUser, { emptyFire with live := none }, [])) ∧
    ((updateUserProfile udB
        { updateOutcome := none, statusEnv := okStatusEnv, storeOutcome := none }
        { fireC8 with live := some uAnn }).1 = .ok () ∧
     (((updateUserProfile udB
        { updateOutcome := none, statusEnv := okStatusEnv, storeOutcome := none }
        { fireC8 with live := some uAnn }).2.1.docs uAnn.uid).getD Obj.empty)
       "birthdate" = some (.str "B") ∧
     (((updateUserProfile udB
        { updateOutcome := none, statusEnv := okStatusEnv, storeOutcome := none }
        { fireC8 with live := some uAnn }).2.1.docs uAnn.uid).getD Obj.empty)
       "updatedAt" = some (.num fireC8.now) ∧
     (updateUserProfile udB
        { updateOutcome := none, statusEnv := okStatusEnv, storeOutcome := none }
        { fireC8 with live := some uAnn }).2.1.cachedUser.isSome = true ∧
     (((updateUserProfile udB
        { updateOutcome := none, statusEnv := okStatusEnv, storeOutcome := none }
        { fireC8 with live := some uAnn }).2.1.cachedUser).getD Obj.empty)
       "birthdate" = some (.str "B")) :=
  updateUserProfile_policy emptyFire fireC8 uAnn udB okUpdateEnv okStatusEnv
    "birthdate" (.str "B") rfl (by decide)

/-! ### Claim C9 -/

/-- Claim C9, counterexample.  Starting from a world with no profile
document at all, a fully successful login writes the session token AND
the user-data snapshot: the last-login update creates the document
(writeProfile is create-or-merge per the spec's capability interface),
so the subsequent read finds it and the snapshot write is not skipped. -/
theorem login_missing_doc_writes_userdata :
    emptyFire.docs uAnn.uid = none ∧
    (login "a@x.com" "pw" okLoginEnv emptyFire).1 = .ok uAnn ∧
    (login "a@x.com" "pw" okLoginEnv emptyFire).2.1.cachedUser.isSome = true ∧
    (login "a@x.com" "pw" okLoginEnv emptyFire).2.1.cachedToken = some "tok9" := by
  refine ⟨rfl, ?_, ?_, ?_⟩ <;>
    simp [login, okLoginEnv, emptyFire, uAnn, FireState.mergeDoc, loginStoreToken]

/-- Claim C9, amended.  Every successful login() leaves both cache
entries populated: the token entry and the user-data entry.  The code's
document-missing branch, which would store a token without a snapshot,
is unreachable on a successful login because the document was just
created-or-merged by the last-login write. -/
theorem login_success_writes_both_entries (email password : String)
    (env : LoginEnv) (s : FireState) (u : Identity)
    (h : (login email password env s).1 = .ok u) :
    (login email password env s).2.1.cachedToken.isSome = true ∧
    (login email password env s).2.1.cachedUser.isSome = true := by
  rcases env with ⟨si, uo, go, so, tkr, tso⟩
  rcases si with e | v
  · simp [login] at h
  · rcases uo with _ | e
    · rcases go with _ | e
      · rcases so with _ | e
        · rcases tkr with e | tok
          · simp [login, FireState.mergeDoc, loginStoreToken] at h
          · rcases tso with _ | e
            · simp [login, FireState.mergeDoc, loginStoreToken]
            · simp [login, FireState.mergeDoc, loginStoreToken] at h
        · simp [login, FireState.mergeDoc] at h
      · simp [login] at h
    · simp [login] at h

/-- Claim C9, witness: the fully successful login from the empty world
ends with both cache entries present. -/
theorem login_success_writes_both_entries_witness :
    (login "a@x.com" "pw" okLoginEnv emptyFire).2.1.cachedToken.isSome = true ∧
    (login "a@x.com" "pw" okLoginEnv emptyFire).2.1.cachedUser.isSome = true :=
  login_success_writes_both_entries "a@x.com" "pw" okLoginEnv emptyFire uAnn
    (by simp [login, okLoginEnv, emptyFire, uAnn, FireState.mergeDoc, loginStoreToken])

/-! ### Claim C10 -/

/-- Context state holding a stale session view. -/
def ctxOld : CtxState :=
  { currentUser := some oldSnap, loading := false, lastErr := none }

/-- Profile-update fields renaming the user. -/
def udNew : Obj := Obj.empty.set "name" (.str "New")

/-- Claim C10, counterexample.  A successful updateProfile event — not an
identity-change callback — rewrites the context's currentUser (its name
field changes from "Old" to "New"), so currentUser is not set only from
the identity provider's identity-change callback. -/
theorem ctx_updateProfile_sets_currentUser :
    (((ctxStep fireC8 ctxOld (.updateProfileEv udNew okUpdateEnv)).2.currentUser).getD
        Obj.empty) "name" = some (.str "New") ∧
    ((ctxOld.currentUser).getD Obj.empty) "name" = some (.str "Old") ∧
    (((ctxStep fireC8 ctxOld (.updateProfileEv udNew okUpdateEnv)).2.currentUser).getD
        Obj.empty) "name" ≠ ((ctxOld.currentUser).getD Obj.empty) "name" := by
  refine ⟨rfl, rfl, by decide⟩

/-- Claim C10, amended.  The navigation layer renders the authenticated
tree iff the context's currentUser state is non-null (and it is neither
initializing nor loading); the context's own isAuthenticated value is the
truthiness of that same state; the render never reads the service-visible
world, so the cached-session-token fallback of the service's
isAuthenticated() never makes the navigation signal authenticated even
while that service query returns true; and currentUser is written only by
the identity-change callback and by a successful updateProfile — the
register, login, logout, resetPassword and changePassword events leave it
unchanged. -/
theorem nav_signal_policy (f f1 f2 : FireState) (c : CtxState) (i : Bool)
    (email password cp np t : String) (ud : Obj) (envR : RegisterEnv)
    (envL : LoginEnv) (envO : LogoutEnv) (envP : Option AuthErr)
    (envC : ChangePasswordEnv) (go : Option AuthErr) :
    (appNavigatorTree i f c = .appStack ↔
      (i = false ∧ c.loading = false ∧ c.currentUser.isSome = true)) ∧
    (ctxIsAuthenticated c = c.currentUser.isSome) ∧
    (appNavigatorTree i f1 c = appNavigatorTree i f2 c) ∧
    (isAuthenticated { getOutcome := go, storageOutcome := none }
        { f with live := none, cachedToken := some t } = true ∧
     appNavigatorTree false f1 { c with currentUser := none, loading := false } =
       .authStack) ∧
    ((ctxStep f c (.registerEv email password ud envR)).2.currentUser =
       c.currentUser ∧
     (ctxStep f c (.loginEv email password envL)).2.currentUser = c.currentUser ∧
     (ctxStep f c (.logoutEv envO)).2.currentUser = c.currentUser ∧
     (ctxStep f c (.resetPasswordEv email envP)).2.currentUser = c.currentUser ∧
     (ctxStep f c (.changePasswordEv cp np envC)).2.currentUser = c.currentUser) := by
  refine ⟨?_, ?_, rfl, ⟨rfl, rfl⟩, rfl, rfl, rfl, rfl, rfl⟩
  · rcases c with ⟨cu, l, er⟩
    cases i <;> cases l <;> rcases cu with _ | o <;> simp [appNavigatorTree]
  · simp [ctxIsAuthenticated]

end FoodGI
